import Mathlib

/-!
Verification of the resilient message-delivery subsystem of the
pharma-whatsapp backend: rate limiter / dedup window, circuit breaker,
dead-letter store and sweep, error classification, retrying consumer,
and the broker-to-stream-to-store bridge.  Definitions are shallow
embeddings of the TypeScript sources; times are modelled as integer
epoch milliseconds.
-/

namespace PharmaWhatsApp

/-- Does the second character list start with the first one?
Helper for modelling JavaScript String.prototype.includes. -/
def charsStart : List Char → List Char → Bool
  | [], _ => true
  | _ :: _, [] => false
  | a :: as, b :: bs => a == b && charsStart as bs

/-- Does the second character list contain the first as a contiguous run?
Helper for modelling JavaScript String.prototype.includes. -/
def charsHasSub (sub : List Char) : List Char → Bool
  | [] => charsStart sub []
  | c :: cs => charsStart sub (c :: cs) || charsHasSub sub cs

/-- JavaScript s.includes(sub). -/
def strIncludes (s sub : String) : Bool :=
  charsHasSub sub.toList s.toList

/-- JavaScript s.toLowerCase(), computed on the character list so that it
evaluates inside the kernel. -/
def strLower (s : String) : String :=
  String.mk (s.data.map Char.toLower)

/-- Split a character list at a separator character (used to model AMQP
routing keys, which are split on a dot). -/
def splitCharAux (sep : Char) : List Char → List Char → List String
  | [], acc => [String.mk acc.reverse]
  | c :: cs, acc =>
      if c == sep then String.mk acc.reverse :: splitCharAux sep cs []
      else splitCharAux sep cs (c :: acc)

/-- Split a string on the dot character, as AMQP does with routing keys. -/
def splitDots (s : String) : List String :=
  splitCharAux '.' s.data []

/-! ## RateLimiter (src/src/utils/RateLimiter.ts)

The limiter keys its map by session+recipient; distinct keys never
interact, so the transition is embedded per key: the input is the entry
currently stored for the key (or none) and the output is the entry the
map holds for that key afterwards.  Times are epoch milliseconds. -/

/-- Per-key entry of RateLimiter.rateLimitMap. -/
structure RateLimitEntry where
  lastMessageTime : Int
  messageCount : Nat
  lastMessageContent : String
deriving Repr, DecidableEq

/-- Result of RateLimiter.canSendMessage.  The source also duplicates
timeRemaining into a retryAfter field with the same value. -/
structure RateLimitResult where
  allowed : Bool
  reason : Option String
  timeRemaining : Option Int
deriving Repr, DecidableEq

/-- RateLimiter.canSendMessage, per key.  window is RATE_LIMIT_WINDOW and
maxPerWindow is MAX_MESSAGES_PER_WINDOW from the configuration. -/
def canSendMessage (window : Int) (maxPerWindow : Nat)
    (entry : Option RateLimitEntry) (content : String) (now : Int) :
    RateLimitResult × RateLimitEntry :=
  match entry with
  | none =>
      ({ allowed := true, reason := none, timeRemaining := none },
       { lastMessageTime := now, messageCount := 1, lastMessageContent := content })
  | some e =>
      let timeSinceLastMessage := now - e.lastMessageTime
      if timeSinceLastMessage < window then
        if e.lastMessageContent == content then
          ({ allowed := false, reason := some "Mensagem duplicada detectada",
             timeRemaining := some (window - timeSinceLastMessage) }, e)
        else if e.messageCount ≥ maxPerWindow then
          ({ allowed := false, reason := some "Limite de mensagens atingido",
             timeRemaining := some (window - timeSinceLastMessage) }, e)
        else
          ({ allowed := true, reason := none, timeRemaining := none },
           { lastMessageTime := now, messageCount := e.messageCount + 1,
             lastMessageContent := content })
      else
        ({ allowed := true, reason := none, timeRemaining := none },
         { lastMessageTime := now, messageCount := 1, lastMessageContent := content })

/-! ## CircuitBreakerService (src/unnamed/part_006) -/

/-- Mutable fields of a CircuitBreakerService instance.
threshold/cooldownTime/serviceName are configuration, passed separately. -/
structure CBState where
  failureCount : Nat
  isOpen : Bool
  nextTryTime : Int
  lastFailureTime : Int
  totalFailures : Nat
  totalSuccesses : Nat
deriving Repr, DecidableEq

/-- State of a freshly constructed CircuitBreakerService. -/
def initialCBState : CBState :=
  { failureCount := 0, isOpen := false, nextTryTime := 0,
    lastFailureTime := 0, totalFailures := 0, totalSuccesses := 0 }

/-- CircuitBreakerService.onSuccess. -/
def cbOnSuccess (s : CBState) : CBState :=
  { s with failureCount := 0, isOpen := false,
           totalSuccesses := s.totalSuccesses + 1 }

/-- CircuitBreakerService.onFailure followed by open() when the threshold
is reached. -/
def cbOnFailure (threshold : Nat) (cooldownTime : Int) (s : CBState)
    (now : Int) : CBState :=
  let s1 := { s with failureCount := s.failureCount + 1,
                     lastFailureTime := now,
                     totalFailures := s.totalFailures + 1 }
  if s1.failureCount ≥ threshold then
    { s1 with isOpen := true, nextTryTime := now + cooldownTime }
  else s1

/-- Outcome of CircuitBreakerService.execute / executeSync.  rejected
carries the remaining cooldown in seconds that the thrown error message
reports; failed means the action threw and the error was rethrown. -/
inductive CBOutcome (α : Type) where
  | rejected (remainingSecs : Int)
  | ok (a : α)
  | failed
deriving Repr, DecidableEq

/-- Result of one call to execute / executeSync: whether the supplied
action was invoked, what the call returned/threw, and the instance state
afterwards. -/
structure CBCallResult (α : Type) where
  invoked : Bool
  outcome : CBOutcome α
  state : CBState
deriving Repr, DecidableEq

/-- CircuitBreakerService.execute (executeSync is branch-for-branch the
same).  The supplied action is represented by its result: Except.ok for a
normal return, Except.error for a throw.  now is Date.now() at the call;
Math.ceil((nextTryTime - now) / 1000) becomes an exact integer ceiling
(the operands are integers and nextTryTime - now > 0 on that branch). -/
def cbExecute {α : Type} (threshold : Nat) (cooldownTime : Int)
    (s : CBState) (now : Int) (action : Except Unit α) : CBCallResult α :=
  if s.isOpen = true ∧ now < s.nextTryTime then
    { invoked := false,
      outcome := .rejected ((s.nextTryTime - now + 999).ediv 1000),
      state := s }
  else
    match action with
    | .ok a => { invoked := true, outcome := .ok a, state := cbOnSuccess s }
    | .error _ =>
        { invoked := true, outcome := .failed,
          state := cbOnFailure threshold cooldownTime s now }

/-! ## RabbitMQErrorHandler (src/src/utils/RabbitMQErrorHandler.ts)

A JavaScript error value is represented by its code and message; the
truthiness tests of the source (error.code, error.message) become
code ≠ 0 and message ≠ "".  The timestamp field (wall clock, log-only)
is not modelled. -/

/-- The error value handed to the error handler. -/
structure JSError where
  code : Option Int
  message : String
deriving Repr, DecidableEq

/-- enum RabbitMQErrorType. -/
inductive RMQErrorType where
  | CONNECTION_REFUSED
  | ACCESS_REFUSED
  | NOT_FOUND
  | PRECONDITION_FAILED
  | RESOURCE_LOCKED
  | CHANNEL_ERROR
  | PERMISSION_DENIED
  | QUEUE_NOT_FOUND
  | EXCHANGE_NOT_FOUND
  | INVALID_ROUTING_KEY
  | MESSAGE_TOO_LARGE
  | UNKNOWN_ERROR
deriving Repr, DecidableEq

/-- interface RabbitMQErrorInfo (without the log-only timestamp). -/
structure RMQErrorInfo where
  type : RMQErrorType
  code : Int
  message : String
  context : String
  retryable : Bool
  retryDelay : Option Int
  shouldReconnect : Bool
  shouldUseDLQ : Bool
  userMessage : String
deriving Repr, DecidableEq

/-- interface ErrorHandlingConfig (logLevel is log-only and not modelled). -/
structure ErrorHandlingConfig where
  maxRetries : Nat
  retryDelay : Int
  exponentialBackoff : Bool
  dlqEnabled : Bool
deriving Repr, DecidableEq

/-- The defaultErrorHandler configuration at the bottom of the file. -/
def defaultErrorHandlerConfig : ErrorHandlingConfig :=
  { maxRetries := 3, retryDelay := 1000, exponentialBackoff := true,
    dlqEnabled := true }

/-- JavaScript truthiness of error.code (a number is falsy exactly when
it is 0 or absent). -/
def codeTruthy : Option Int → Bool
  | none => false
  | some c => c != 0

/-- The numeric-code switch of RabbitMQErrorHandler.analyzeError (the
if (error.code) block), producing the errorInfo the message-pattern chain
then refines. -/
def analyzeErrorCode (error : JSError) (context : String) : RMQErrorInfo :=
  let e0 : RMQErrorInfo :=
    { type := .UNKNOWN_ERROR, code := 0,
      message := if error.message != "" then error.message else "Unknown error",
      context := context, retryable := false, retryDelay := none,
      shouldReconnect := false, shouldUseDLQ := false,
      userMessage := "Erro desconhecido no RabbitMQ" }
  match error.code with
  | none => e0
  | some c =>
      if c != 0 then
        let eb := { e0 with code := c }
        if c == 403 then
          { eb with type := .ACCESS_REFUSED, retryable := false,
                    shouldReconnect := false, shouldUseDLQ := true,
                    userMessage := "Acesso negado ao RabbitMQ. Verifique as credenciais e permissões." }
        else if c == 404 then
          { eb with type := .NOT_FOUND, retryable := false,
                    shouldReconnect := false, shouldUseDLQ := true,
                    userMessage := "Recurso não encontrado no RabbitMQ (fila ou exchange inexistente)." }
        else if c == 406 then
          { eb with type := .PRECONDITION_FAILED, retryable := false,
                    shouldReconnect := false, shouldUseDLQ := true,
                    userMessage := "Falha de pré-condição no RabbitMQ. Verifique a configuração da fila." }
        else if c == 405 then
          { eb with type := .RESOURCE_LOCKED, retryable := true,
                    shouldReconnect := false, shouldUseDLQ := false,
                    retryDelay := some 5000,
                    userMessage := "Recurso bloqueado no RabbitMQ. Tentando novamente em breve." }
        else if c == 503 then
          { eb with type := .CONNECTION_REFUSED, retryable := true,
                    shouldReconnect := true, shouldUseDLQ := false,
                    retryDelay := some 2000,
                    userMessage := "Conexão recusada pelo RabbitMQ. Tentando reconectar." }
        else
          { eb with type := .UNKNOWN_ERROR, retryable := true,
                    shouldReconnect := true, shouldUseDLQ := true,
                    userMessage := "Erro " ++ toString c ++ " no RabbitMQ: "
                      ++ error.message }
      else e0

/-- The message-pattern chain of RabbitMQErrorHandler.analyzeError (the
if (error.message) block), refining the errorInfo the code switch
produced. -/
def analyzeErrorMessage (error : JSError) (e1 : RMQErrorInfo) :
    RMQErrorInfo :=
  if error.message != "" then
    let m := strLower error.message
    if strIncludes m "access refused" || strIncludes m "403" then
      { e1 with type := .ACCESS_REFUSED, code := 403, retryable := false,
                shouldReconnect := false, shouldUseDLQ := true,
                userMessage := "Acesso negado ao RabbitMQ. Verifique as credenciais e permissões." }
    else if strIncludes m "not found" || strIncludes m "404" then
      { e1 with type := .NOT_FOUND, code := 404, retryable := false,
                shouldReconnect := false, shouldUseDLQ := true,
                userMessage := "Recurso não encontrado no RabbitMQ (fila ou exchange inexistente)." }
    else if strIncludes m "precondition failed" || strIncludes m "406" then
      { e1 with type := .PRECONDITION_FAILED, code := 406, retryable := false,
                shouldReconnect := false, shouldUseDLQ := true,
                userMessage := "Falha de pré-condição no RabbitMQ. Verifique a configuração da fila." }
    else if strIncludes m "resource locked" || strIncludes m "405" then
      { e1 with type := .RESOURCE_LOCKED, code := 405, retryable := true,
                shouldReconnect := false, shouldUseDLQ := false,
                retryDelay := some 5000,
                userMessage := "Recurso bloqueado no RabbitMQ. Tentando novamente em breve." }
    else if strIncludes m "connection refused" || strIncludes m "503" then
      { e1 with type := .CONNECTION_REFUSED, code := 503, retryable := true,
                shouldReconnect := true, shouldUseDLQ := false,
                retryDelay := some 2000,
                userMessage := "Conexão recusada pelo RabbitMQ. Tentando reconectar." }
    else if strIncludes m "permission denied" then
      { e1 with type := .PERMISSION_DENIED, code := 403, retryable := false,
                shouldReconnect := false, shouldUseDLQ := true,
                userMessage := "Permissão negada no RabbitMQ. Verifique as permissões do usuário." }
    else if strIncludes m "queue not found" then
      { e1 with type := .QUEUE_NOT_FOUND, code := 404, retryable := false,
                shouldReconnect := false, shouldUseDLQ := true,
                userMessage := "Fila não encontrada no RabbitMQ." }
    else if strIncludes m "exchange not found" then
      { e1 with type := .EXCHANGE_NOT_FOUND, code := 404, retryable := false,
                shouldReconnect := false, shouldUseDLQ := true,
                userMessage := "Exchange não encontrado no RabbitMQ." }
    else if strIncludes m "invalid routing key" then
      { e1 with type := .INVALID_ROUTING_KEY, code := 406, retryable := false,
                shouldReconnect := false, shouldUseDLQ := true,
                userMessage := "Routing key inválida no RabbitMQ." }
    else if strIncludes m "message too large" then
      { e1 with type := .MESSAGE_TOO_LARGE, code := 406, retryable := false,
                shouldReconnect := false, shouldUseDLQ := true,
                userMessage := "Mensagem muito grande para o RabbitMQ." }
    else e1
  else e1

/-- RabbitMQErrorHandler.analyzeError: the numeric-code switch followed
by the message-pattern chain. -/
def analyzeError (error : JSError) (context : String) : RMQErrorInfo :=
  analyzeErrorMessage error (analyzeErrorCode error context)

/-- RabbitMQErrorHandler.shouldRetry. -/
def ehShouldRetry (cfg : ErrorHandlingConfig) (info : RMQErrorInfo)
    (currentRetryCount : Nat) : Bool :=
  if info.retryable = false then false
  else if cfg.maxRetries ≤ currentRetryCount then false
  else if info.type == .ACCESS_REFUSED then false
  else if info.type == .PERMISSION_DENIED then false
  else if info.type == .MESSAGE_TOO_LARGE then false
  else true

/-- RabbitMQErrorHandler.calculateRetryDelay.  The truthiness test
if (errorInfo.retryDelay) is false for an absent or zero delay. -/
def calculateRetryDelay (cfg : ErrorHandlingConfig) (info : RMQErrorInfo)
    (currentRetryCount : Nat) : Int :=
  let fallback : Int :=
    if cfg.exponentialBackoff then cfg.retryDelay * 2 ^ currentRetryCount
    else cfg.retryDelay
  match info.retryDelay with
  | some d => if d != 0 then d else fallback
  | none => fallback

/-- The action component of RabbitMQErrorHandler.handleError. -/
inductive ErrorAction where
  | retry
  | reconnect
  | dlq
  | discard
  | log
deriving Repr, DecidableEq

/-- Return value of RabbitMQErrorHandler.handleError. -/
structure ErrorActionResult where
  errorInfo : RMQErrorInfo
  action : ErrorAction
  delay : Int
deriving Repr, DecidableEq

/-- RabbitMQErrorHandler.handleError. -/
def handleError (cfg : ErrorHandlingConfig) (error : JSError)
    (context : String) (currentRetryCount : Nat) : ErrorActionResult :=
  let errorInfo := analyzeError error context
  if errorInfo.type == .ACCESS_REFUSED then
    { errorInfo := errorInfo, action := .log, delay := 0 }
  else if errorInfo.type == .PERMISSION_DENIED then
    { errorInfo := errorInfo, action := .log, delay := 0 }
  else if errorInfo.shouldReconnect then
    { errorInfo := errorInfo, action := .reconnect,
      delay := calculateRetryDelay cfg errorInfo currentRetryCount }
  else if ehShouldRetry cfg errorInfo currentRetryCount then
    { errorInfo := errorInfo, action := .retry,
      delay := calculateRetryDelay cfg errorInfo currentRetryCount }
  else if errorInfo.shouldUseDLQ && cfg.dlqEnabled then
    { errorInfo := errorInfo, action := .dlq, delay := 0 }
  else
    { errorInfo := errorInfo, action := .discard, delay := 0 }

/-! ## UnifiedConsumer.handleMessageError and the broker topology
(src/src/services/OpenAIService.ts, src/src/services/UnifiedProducer.ts,
src/unnamed/part_004, src/unnamed/part_005) -/

/-- The consumer configuration fields handleMessageError reads, with the
constructor defaults of UnifiedConsumer. -/
structure ConsumerConfig where
  maxRetries : Nat
  retryDelay : Int
  dlqEnabled : Bool
deriving Repr, DecidableEq

/-- UnifiedConsumer constructor defaults. -/
def defaultConsumerConfig : ConsumerConfig :=
  { maxRetries := 3, retryDelay := 1000, dlqEnabled := true }

/-- The RabbitMQErrorHandler configuration UnifiedConsumer builds from its
own configuration (exponentialBackoff is hard-coded to true). -/
def consumerEHConfig (c : ConsumerConfig) : ErrorHandlingConfig :=
  { maxRetries := c.maxRetries, retryDelay := c.retryDelay,
    exponentialBackoff := true, dlqEnabled := c.dlqEnabled }

/-- Channel operations handleMessageError performs, in order.  publish
carries the delay of the setTimeout that wraps it (0 = immediate) and the
x-retry-count header value. -/
inductive ChannelOp where
  | publish (exchange routingKey : String) (delayMs : Int)
      (retryCountHeader : Nat)
  | ack
  | nackNoRequeue
deriving Repr, DecidableEq

/-- UnifiedConsumer.handleMessageError: the sequence of channel operations
it performs for a delivery whose x-retry-count header is retryCountHeader
and whose handler threw error.  (The surrounding catch, which nacks when a
channel operation itself throws, is outside this model: the trace assumes
channel operations succeed.)  Note that the retry republish targets the
fixed pair exchange baileys.events / routing key message.retry, regardless
of the queue the delivery was consumed from. -/
def handleMessageError (c : ConsumerConfig) (retryCountHeader : Nat)
    (error : JSError) (context : String) : List ChannelOp :=
  let errorAction := handleError (consumerEHConfig c) error context retryCountHeader
  let retryCount := retryCountHeader
  if errorAction.action == .retry && decide (retryCount < c.maxRetries) then
    [.publish "baileys.events" "message.retry" errorAction.delay (retryCount + 1),
     .ack]
  else if errorAction.action == .dlq && c.dlqEnabled then
    [.publish "baileys.dlx" "dead.letter" 0 retryCount, .ack]
  else
    [.nackNoRequeue]

/-- A queue binding: queue, exchange, and the routing pattern already
split on dots (instance identifiers contain no dot). -/
structure QueueBinding where
  queue : String
  exchange : String
  pattern : List String
deriving Repr, DecidableEq

/-- Name of the per-instance queue of UnifiedConsumer.setupQueues. -/
def instanceQueueName (instanceId : String) : String :=
  "baileys.instance.queue." ++ instanceId

/-- The queue bindings the running system declares:
UnifiedProducer.connect and MessageBridge.setupRabbitConsumer bind the
bridge queue, UnifiedConsumer.setupDeadLetterQueue and
DeadLetterQueue.setupDLQInfrastructure bind the two dead-letter queues,
and UnifiedConsumer.setupQueues binds the instance queue.  The one other
bindQueue in the sources, QueueManager.ensureDeadLetterQueue, binds a
per-queue dead-letter queue to its own per-queue direct exchange named
queueName.dlx — QueueManager is never instantiated, and such an exchange
name can never equal the topic exchanges used here, so it is omitted. -/
def declaredBindings (instanceId : String) : List QueueBinding :=
  [ { queue := "whatsapp.messages.bridge", exchange := "whatsapp.messages",
      pattern := ["message", "received"] },
    { queue := "baileys.dead.letter", exchange := "baileys.dlx",
      pattern := ["dead", "letter"] },
    { queue := "baileys.dlq", exchange := "baileys.dlx",
      pattern := ["dead", "letter"] },
    { queue := instanceQueueName instanceId, exchange := "baileys.events",
      pattern := ["instance", "create"] },
    { queue := instanceQueueName instanceId, exchange := "baileys.events",
      pattern := ["instance", "delete"] },
    { queue := instanceQueueName instanceId, exchange := "baileys.events",
      pattern := ["instance", instanceId, "*"] } ]

/-- AMQP topic matching for the patterns this topology declares: a star
word matches any single word (no binding here uses the multi-word hash
wildcard, and
the direct-exchange bindings contain no wildcard at all, so literal
equality and topic matching coincide for them). -/
def topicMatch : List String → List String → Bool
  | [], [] => true
  | p :: ps, k :: ks => (p == "*" || p == k) && topicMatch ps ks
  | _, _ => false

/-- Does a publish to (exchange, routingKey) reach the given queue under
the declared bindings? -/
def deliversTo (instanceId exchange routingKey queue : String) : Bool :=
  (declaredBindings instanceId).any fun b =>
    b.queue == queue && b.exchange == exchange &&
      topicMatch b.pattern (splitDots routingKey)

/-! ## DeadLetterQueue (src/unnamed/part_004) and DLQManager
(src/src/services/OpenAIService.ts)

ISO timestamps are modelled as epoch milliseconds (the sweep compares
them through new Date(...).getTime(), which recovers exactly these
milliseconds).  Payloads are opaque strings. -/

/-- interface DLQMessage of part_004. -/
structure DLQMessage where
  id : String
  originalRoutingKey : String
  originalExchange : String
  originalQueue : String
  payload : String
  error : String
  retryCount : Nat
  maxRetries : Nat
  timestamp : Int
  lastErrorTimestamp : Int
  instanceId : Option String
deriving Repr, DecidableEq

/-- maxRetries of the DLQConfig constant in part_004. -/
def dlqConfigMaxRetries : Nat := 3

/-- Redis key of a parked record. -/
def dlqKey (id : String) : String := "dlq:message:" ++ id

/-- TTL of a parked record: 7 days in seconds. -/
def dlqRecordTTL : Nat := 7 * 24 * 60 * 60

/-- Effects on Redis and on the broker channel performed by the
dead-letter code, in program order. -/
inductive StoreEffect where
  | redisSet (key : String) (value : DLQMessage) (ttlSecs : Nat)
  | redisDel (key : String)
  | archiveAppend (listKey : String) (messageId : String)
  | redisExpire (key : String) (ttlSecs : Nat)
  | publishRecord (exchange routingKey : String) (record : DLQMessage)
  | publishPayload (exchange routingKey payload : String)
deriving Repr, DecidableEq

/-- DeadLetterQueue.saveDLQMessageToRedis. -/
def saveDLQMessageToRedis (m : DLQMessage) : StoreEffect :=
  .redisSet (dlqKey m.id) m dlqRecordTTL

/-- DeadLetterQueue.sendToDeadLetterQueue (the park operation): build the
record, save it to Redis, publish it to the dead-letter exchange.
originalQueue is originalMessage.queue falling back to "unknown"; newId is
the generated message identifier; now is the wall clock (both ISO
timestamps of the record are taken at the same instant). -/
def sendToDeadLetterQueue (originalPayload originalQueue originalRoutingKey : String)
    (error : String) (retryCount : Nat) (instanceId : Option String)
    (now : Int) (newId : String) : DLQMessage × List StoreEffect :=
  let m : DLQMessage :=
    { id := newId, originalRoutingKey := originalRoutingKey,
      originalExchange := "baileys.events", originalQueue := originalQueue,
      payload := originalPayload, error := error, retryCount := retryCount,
      maxRetries := dlqConfigMaxRetries, timestamp := now,
      lastErrorTimestamp := now, instanceId := instanceId }
  (m, [saveDLQMessageToRedis m, .publishRecord "baileys.dlx" "dead.letter" m])

/-- DeadLetterQueue.retryMessage.  stored is what
getDLQMessageFromRedis(messageId) finds; publishOutcome is the
channel.publish call on the original destination: Except.ok b when it
returns b, Except.error when it throws (the catch then returns false, the
Redis update having already happened).  Returns the boolean result and
the effects in program order. -/
def retryMessage (stored : Option DLQMessage) (now : Int)
    (publishOutcome : Except Unit Bool) : Bool × List StoreEffect :=
  match stored with
  | none => (false, [])
  | some m =>
    if m.maxRetries ≤ m.retryCount then (false, [])
    else
      let m' := { m with retryCount := m.retryCount + 1,
                         lastErrorTimestamp := now }
      match publishOutcome with
      | .ok published =>
          (published,
           [saveDLQMessageToRedis m',
            .publishPayload m'.originalExchange m'.originalRoutingKey m'.payload])
      | .error _ => (false, [saveDLQMessageToRedis m'])

/-- The allow-list of DLQManager.isRecoverableError. -/
def recoverableErrorTypes : List String :=
  ["CONNECTION_RESET", "TIMEOUT", "NETWORK_ERROR", "TEMPORARY_FAILURE",
   "RATE_LIMIT", "SERVICE_UNAVAILABLE"]

/-- The deny-list of DLQManager.isRecoverableError. -/
def nonRecoverableErrorTypes : List String :=
  ["AUTHENTICATION_ERROR", "INVALID_MESSAGE_FORMAT", "VALIDATION_ERROR",
   "PERMISSION_DENIED", "NOT_FOUND"]

/-- DLQManager.isRecoverableError: the deny-list is checked first, then
the allow-list, and anything matching neither is recoverable. -/
def isRecoverableError (error : String) : Bool :=
  if nonRecoverableErrorTypes.any (fun t => strIncludes error t) then false
  else if recoverableErrorTypes.any (fun t => strIncludes error t) then true
  else true

/-- DLQManager.shouldRetryMessage.  The source computes
timeDiff = (now − lastErrorTimestamp) / 1000 in (exact) floating point and
compares timeDiff < 300; on integer milliseconds that is equivalent to
now − lastErrorTimestamp < 300000. -/
def shouldRetryMessage (m : DLQMessage) (now : Int) : Bool :=
  if m.maxRetries ≤ m.retryCount then false
  else if now - m.lastErrorTimestamp < 300 * 1000 then false
  else isRecoverableError m.error

/-- DLQManager.archiveMessage: lpush an audit entry onto the daily
archive list, then set its 30-day TTL.  today is the date component of
the current ISO timestamp. -/
def archiveMessage (m : DLQMessage) (today : String) : List StoreEffect :=
  [.archiveAppend ("dlq:archive:" ++ today) m.id,
   .redisExpire ("dlq:archive:" ++ today) (30 * 24 * 60 * 60)]

/-- DLQManager.discardMessage: archive, then delete the live record. -/
def discardMessage (m : DLQMessage) (today : String) : List StoreEffect :=
  archiveMessage m today ++ [.redisDel (dlqKey m.id)]

/-- Per-record outcome counted in the sweep statistics. -/
inductive SweepOutcome where
  | retried
  | failedRetry
  | discarded
deriving Repr, DecidableEq

/-- The body of the loop in DLQManager.processFailedMessages for one
record: retry when shouldRetryMessage says so (retrySucceeds is the
boolean result of dlq.retryMessage, whose own effects are modelled by
retryMessage above), otherwise discard.  The effects listed here are the
Redis operations of the sweep itself. -/
def processOneDLQMessage (m : DLQMessage) (now : Int) (today : String)
    (retrySucceeds : Bool) : SweepOutcome × List StoreEffect :=
  if shouldRetryMessage m now then
    if retrySucceeds then (.retried, []) else (.failedRetry, [])
  else
    (.discarded, discardMessage m today)

/-- DLQManager.processFailedMessages over the batch getDLQMessages
returned (the source bounds the batch to 100 records and sleeps between
iterations; neither affects the per-record decision). -/
def processFailedMessages (msgs : List DLQMessage) (now : Int)
    (today : String) (retrySucceeds : String → Bool) :
    List (DLQMessage × SweepOutcome × List StoreEffect) :=
  msgs.map fun m => (m, processOneDLQMessage m now today (retrySucceeds m.id))

/-! ## MessageBridge (src/unnamed/part_005) and RedisConsumer
(src/src/services/RedisConsumer.ts) -/

/-- RedisConsumer.addMessageToStream: the xAdd call may throw, but the
surrounding catch logs the error and returns null — the caller never sees
a throw. -/
def addMessageToStream (xAddOutcome : Except Unit String) : Option String :=
  match xAddOutcome with
  | .ok newId => some newId
  | .error _ => none

/-- Acknowledgement sent back to the broker for one delivery. -/
inductive BrokerAck where
  | ack
  | nackNoRequeue
deriving Repr, DecidableEq

/-- The message handler of MessageBridge.startRabbitConsumer:
JSON.parse the delivery, forward it with addMessageToStream, then ack;
the catch nacks without requeue.  Because addMessageToStream swallows
every append error (returning none), only a parse failure can reach the
catch.  Returns the broker acknowledgement and the stream id the append
produced (none when the append failed). -/
def bridgeOnRabbitMessage (parseOutcome : Except Unit Unit)
    (xAddOutcome : Except Unit String) : BrokerAck × Option String :=
  match parseOutcome with
  | .error _ => (.nackNoRequeue, none)
  | .ok _ => (.ack, addMessageToStream xAddOutcome)

/-- RedisConsumer.processMessage for one claimed log entry:
callbackOutcome covers the field conversion and the storage callback
(Except.error when either throws).  Returns whether xAck was issued for
the entry: the success path acks after the callback returns, and the
catch block (marked TODO in the source) acks the failed entry as well. -/
def rcProcessMessage (callbackOutcome : Except Unit Unit) : Bool :=
  match callbackOutcome with
  | .ok _ => true
  | .error _ => true

/-- Is an effect an append onto a daily archive list? -/
def isArchiveAppendEffect : StoreEffect → Bool
  | .archiveAppend _ _ => true
  | _ => false

/-! ## Theorems -/

/-- C6: canSendMessage follows the case analysis of the spec — no prior entry
allows and creates a count-1 entry; within the window an equal-content
send is rejected as a duplicate with the remaining window time, an
at-limit count is rejected as rate-limited, and otherwise the send is
allowed with the count incremented and the content updated; an elapsed
window resets the entry and allows.  With window 30000 identical content
twice within the window is rejected as duplicate, and with max 1 a second
distinct-content send within the window is rejected as rate-limited. -/
theorem C6_rate_limiter_window_cases :
    (∀ (window : Int) (maxPerWindow : Nat) (content : String) (now : Int),
      canSendMessage window maxPerWindow none content now =
        ({ allowed := true, reason := none, timeRemaining := none },
         { lastMessageTime := now, messageCount := 1,
           lastMessageContent := content })) ∧
    (∀ (window : Int) (maxPerWindow : Nat) (e : RateLimitEntry)
        (content : String) (now : Int),
      now - e.lastMessageTime < window →
      e.lastMessageContent = content →
      canSendMessage window maxPerWindow (some e) content now =
        ({ allowed := false, reason := some "Mensagem duplicada detectada",
           timeRemaining := some (window - (now - e.lastMessageTime)) }, e)) ∧
    (∀ (window : Int) (maxPerWindow : Nat) (e : RateLimitEntry)
        (content : String) (now : Int),
      now - e.lastMessageTime < window →
      e.lastMessageContent ≠ content →
      maxPerWindow ≤ e.messageCount →
      canSendMessage window maxPerWindow (some e) content now =
        ({ allowed := false, reason := some "Limite de mensagens atingido",
           timeRemaining := some (window - (now - e.lastMessageTime)) }, e)) ∧
    (∀ (window : Int) (maxPerWindow : Nat) (e : RateLimitEntry)
        (content : String) (now : Int),
      now - e.lastMessageTime < window →
      e.lastMessageContent ≠ content →
      e.messageCount < maxPerWindow →
      canSendMessage window maxPerWindow (some e) content now =
        ({ allowed := true, reason := none, timeRemaining := none },
         { lastMessageTime := now, messageCount := e.messageCount + 1,
           lastMessageContent := content })) ∧
    (∀ (window : Int) (maxPerWindow : Nat) (e : RateLimitEntry)
        (content : String) (now : Int),
      window ≤ now - e.lastMessageTime →
      canSendMessage window maxPerWindow (some e) content now =
        ({ allowed := true, reason := none, timeRemaining := none },
         { lastMessageTime := now, messageCount := 1,
           lastMessageContent := content })) ∧
    (∀ (maxPerWindow : Nat) (content : String) (t d : Int),
      0 ≤ d → d < 30000 →
      (canSendMessage 30000 maxPerWindow none content t).1.allowed = true ∧
      (canSendMessage 30000 maxPerWindow
          (some (canSendMessage 30000 maxPerWindow none content t).2)
          content (t + d)).1 =
        { allowed := false, reason := some "Mensagem duplicada detectada",
          timeRemaining := some (30000 - d) }) ∧
    (∀ (c1 c2 : String) (t d : Int),
      c1 ≠ c2 → 0 ≤ d → d < 30000 →
      (canSendMessage 30000 1 none c1 t).1.allowed = true ∧
      (canSendMessage 30000 1
          (some (canSendMessage 30000 1 none c1 t).2) c2 (t + d)).1 =
        { allowed := false, reason := some "Limite de mensagens atingido",
          timeRemaining := some (30000 - d) }) := by
  refine ⟨?_, ?_, ?_, ?_, ?_, ?_, ?_⟩
  · intro window maxPerWindow content now
    rfl
  · intro window maxPerWindow e content now h1 h2
    simp [canSendMessage, h1, h2]
  · intro window maxPerWindow e content now h1 h2 h3
    have hb : (e.lastMessageContent == content) = false := by
      simp [h2]
    simp [canSendMessage, h1, hb, h3]
  · intro window maxPerWindow e content now h1 h2 h3
    have hb : (e.lastMessageContent == content) = false := by
      simp [h2]
    simp [canSendMessage, h1, hb, not_le.mpr h3]
  · intro window maxPerWindow e content now h
    simp [canSendMessage, not_lt.mpr h]
  · intro maxPerWindow content t d _h0 hd
    refine ⟨rfl, ?_⟩
    have ht : t + d - t = d := by omega
    simp [canSendMessage, ht, hd]
  · intro c1 c2 t d hne _h0 hd
    refine ⟨rfl, ?_⟩
    have ht : t + d - t = d := by omega
    have hb : (c1 == c2) = false := by simp [hne]
    simp [canSendMessage, ht, hd, hb]

/-- C6 witness: the theorem applied at concrete inputs. -/
theorem C6_rate_limiter_window_cases_witness :
    canSendMessage 30000 1 (some ⟨1000, 1, "oi"⟩) "oi" 2000 =
      ({ allowed := false, reason := some "Mensagem duplicada detectada",
         timeRemaining := some 29000 }, ⟨1000, 1, "oi"⟩) ∧
    canSendMessage 30000 1 (some ⟨1000, 1, "oi"⟩) "tchau" 2000 =
      ({ allowed := false, reason := some "Limite de mensagens atingido",
         timeRemaining := some 29000 }, ⟨1000, 1, "oi"⟩) ∧
    canSendMessage 30000 2 (some ⟨1000, 1, "oi"⟩) "tchau" 2000 =
      ({ allowed := true, reason := none, timeRemaining := none },
       ⟨2000, 2, "tchau"⟩) ∧
    canSendMessage 30000 1 (some ⟨1000, 1, "oi"⟩) "oi" 31000 =
      ({ allowed := true, reason := none, timeRemaining := none },
       ⟨31000, 1, "oi"⟩) := by
  refine ⟨?_, ?_, ?_, ?_⟩
  · exact C6_rate_limiter_window_cases.2.1 30000 1 ⟨1000, 1, "oi"⟩ "oi" 2000
      (by decide) rfl
  · exact C6_rate_limiter_window_cases.2.2.1 30000 1 ⟨1000, 1, "oi"⟩ "tchau"
      2000 (by decide) (by decide) (by decide)
  · exact C6_rate_limiter_window_cases.2.2.2.1 30000 2 ⟨1000, 1, "oi"⟩
      "tchau" 2000 (by decide) (by decide) (by decide)
  · exact C6_rate_limiter_window_cases.2.2.2.2.1 30000 1 ⟨1000, 1, "oi"⟩
      "oi" 31000 (by decide)

/-- C10: whenever canSendMessage rejects (duplicate or rate-limited), the
stored entry for the key is returned unchanged, so a rejected attempt
never shifts the window. -/
theorem C10_rejection_leaves_entry_unchanged :
    ∀ (window : Int) (maxPerWindow : Nat) (e : RateLimitEntry)
      (content : String) (now : Int),
      (canSendMessage window maxPerWindow (some e) content now).1.allowed
        = false →
      (canSendMessage window maxPerWindow (some e) content now).2 = e := by
  intro window maxPerWindow e content now h
  simp only [canSendMessage] at h ⊢
  split_ifs at h ⊢ <;> simp_all

/-- C10 witness: the theorem applied at a concrete rejected input. -/
theorem C10_rejection_leaves_entry_unchanged_witness :
    (canSendMessage 30000 1 (some ⟨0, 1, "a"⟩) "a" 10).1.allowed = false ∧
    (canSendMessage 30000 1 (some ⟨0, 1, "a"⟩) "a" 10).2 = ⟨0, 1, "a"⟩ :=
  ⟨by decide,
   C10_rejection_leaves_entry_unchanged 30000 1 ⟨0, 1, "a"⟩ "a" 10
     (by decide)⟩

/-- C2: with threshold 3, three consecutive failed executions open the
breaker with nextTryTime = now of the third failure + cooldown; while
open and before nextTryTime, execute rejects with the remaining cooldown
in (ceiling) seconds without invoking the action; an execute at or after
nextTryTime runs the action and, on success, closes the breaker with
failureCount reset to 0 in the same state update. -/
theorem C2_circuit_breaker_transitions (cooldown : Int) :
    (∀ (s : CBState) (t1 t2 t3 : Int),
      s.isOpen = false → s.failureCount = 0 →
      ((cbExecute (α := Unit) 3 cooldown
          ((cbExecute (α := Unit) 3 cooldown
              ((cbExecute (α := Unit) 3 cooldown s t1 (Except.error ())).state)
              t2 (Except.error ())).state)
          t3 (Except.error ())).state).isOpen = true ∧
      ((cbExecute (α := Unit) 3 cooldown
          ((cbExecute (α := Unit) 3 cooldown
              ((cbExecute (α := Unit) 3 cooldown s t1 (Except.error ())).state)
              t2 (Except.error ())).state)
          t3 (Except.error ())).state).nextTryTime = t3 + cooldown ∧
      ((cbExecute (α := Unit) 3 cooldown
          ((cbExecute (α := Unit) 3 cooldown
              ((cbExecute (α := Unit) 3 cooldown s t1 (Except.error ())).state)
              t2 (Except.error ())).state)
          t3 (Except.error ())).state).failureCount = 3) ∧
    (∀ (α : Type) (s : CBState) (now : Int) (action : Except Unit α),
      s.isOpen = true → now < s.nextTryTime →
      cbExecute 3 cooldown s now action =
        { invoked := false,
          outcome := .rejected ((s.nextTryTime - now + 999).ediv 1000),
          state := s }) ∧
    (∀ (α : Type) (s : CBState) (now : Int) (a : α),
      s.nextTryTime ≤ now →
      cbExecute 3 cooldown s now (Except.ok a) =
        { invoked := true, outcome := .ok a, state := cbOnSuccess s } ∧
      (cbOnSuccess s).failureCount = 0 ∧ (cbOnSuccess s).isOpen = false) := by
  refine ⟨?_, ?_, ?_⟩
  · intro s t1 t2 t3 hopen hcount
    simp [cbExecute, cbOnFailure, hopen, hcount]
  · intro α s now action hopen hlt
    simp [cbExecute, hopen, hlt]
  · intro α s now a hle
    have h' : ¬ now < s.nextTryTime := not_lt.mpr hle
    exact ⟨by simp [cbExecute, h'], rfl, rfl⟩

/-- C2 witness: a concrete three-failure run from the initial state with
cooldown 30000, a rejected probe while cooling down, and a closing
success at the cooldown boundary. -/
theorem C2_circuit_breaker_transitions_witness :
    (((cbExecute (α := Unit) 3 30000
        ((cbExecute (α := Unit) 3 30000
            ((cbExecute (α := Unit) 3 30000 initialCBState 0
                (Except.error ())).state)
            1 (Except.error ())).state)
        2 (Except.error ())).state).isOpen = true ∧
     ((cbExecute (α := Unit) 3 30000
        ((cbExecute (α := Unit) 3 30000
            ((cbExecute (α := Unit) 3 30000 initialCBState 0
                (Except.error ())).state)
            1 (Except.error ())).state)
        2 (Except.error ())).state).nextTryTime = 2 + 30000 ∧
     ((cbExecute (α := Unit) 3 30000
        ((cbExecute (α := Unit) 3 30000
            ((cbExecute (α := Unit) 3 30000 initialCBState 0
                (Except.error ())).state)
            1 (Except.error ())).state)
        2 (Except.error ())).state).failureCount = 3) ∧
    cbExecute (α := Unit) 3 30000 ⟨3, true, 30002, 2, 3, 0⟩ 10000
        (Except.ok ()) =
      { invoked := false,
        outcome := .rejected (((30002 : Int) - 10000 + 999).ediv 1000),
        state := ⟨3, true, 30002, 2, 3, 0⟩ } ∧
    cbExecute (α := Unit) 3 30000 ⟨3, true, 30002, 2, 3, 0⟩ 30002
        (Except.ok ()) =
      { invoked := true, outcome := .ok (),
        state := ⟨0, false, 30002, 2, 3, 1⟩ } := by
  refine ⟨?_, ?_, ?_⟩
  · exact (C2_circuit_breaker_transitions 30000).1 initialCBState 0 1 2
      rfl rfl
  · exact (C2_circuit_breaker_transitions 30000).2.1 Unit
      ⟨3, true, 30002, 2, 3, 0⟩ 10000 (Except.ok ()) rfl (by decide)
  · exact ((C2_circuit_breaker_transitions 30000).2.2 Unit
      ⟨3, true, 30002, 2, 3, 0⟩ 30002 () (by decide)).1

/-- C4: the sweep retries a parked record iff retryCount < maxRetries,
at least 300 seconds passed since lastErrorTimestamp, and the error is
classified recoverable; a deny-listed terminal category is never
recoverable even when an allow-listed one also occurs, an error matching
neither list defaults to recoverable, and a record failing the decision
is archived into the daily bucket and deleted from the live store. -/
theorem C4_sweep_retry_decision :
    (∀ (m : DLQMessage) (now : Int),
      shouldRetryMessage m now = true ↔
        (m.retryCount < m.maxRetries ∧
         300 * 1000 ≤ now - m.lastErrorTimestamp ∧
         isRecoverableError m.error = true)) ∧
    (∀ (err : String),
      nonRecoverableErrorTypes.any (fun t => strIncludes err t) = true →
      isRecoverableError err = false) ∧
    (∀ (err : String),
      nonRecoverableErrorTypes.any (fun t => strIncludes err t) = false →
      recoverableErrorTypes.any (fun t => strIncludes err t) = false →
      isRecoverableError err = true) ∧
    (∀ (m : DLQMessage) (now : Int) (today : String) (rs : Bool),
      shouldRetryMessage m now = false →
      processOneDLQMessage m now today rs =
        (.discarded,
         [.archiveAppend ("dlq:archive:" ++ today) m.id,
          .redisExpire ("dlq:archive:" ++ today) (30 * 24 * 60 * 60),
          .redisDel ("dlq:message:" ++ m.id)])) ∧
    (∀ (msgs : List DLQMessage) (now : Int) (today : String)
        (rs : String → Bool) (m : DLQMessage) (out : SweepOutcome)
        (effs : List StoreEffect),
      (m, out, effs) ∈ processFailedMessages msgs now today rs →
      ((out = .retried ∨ out = .failedRetry) ↔
        shouldRetryMessage m now = true)) := by
  refine ⟨?_, ?_, ?_, ?_, ?_⟩
  · intro m now
    simp only [shouldRetryMessage]
    split_ifs with h1 h2
    · simp only [Bool.false_eq_true, false_iff]
      rintro ⟨hc, -, -⟩
      omega
    · simp only [Bool.false_eq_true, false_iff]
      rintro ⟨-, ht, -⟩
      omega
    · constructor
      · intro h
        exact ⟨by omega, by omega, h⟩
      · rintro ⟨-, -, h⟩
        exact h
  · intro err h
    simp [isRecoverableError, h]
  · intro err h1 h2
    simp [isRecoverableError, h1, h2]
  · intro m now today rs h
    simp [processOneDLQMessage, h, discardMessage, archiveMessage, dlqKey]
  · intro msgs now today rs m out effs hmem
    simp only [processFailedMessages, List.mem_map] at hmem
    obtain ⟨m', -, heq⟩ := hmem
    have hm : m' = m := congrArg Prod.fst heq
    subst hm
    have ho : processOneDLQMessage m' now today (rs m'.id) = (out, effs) :=
      congrArg Prod.snd heq
    by_cases hs : shouldRetryMessage m' now = true
    · simp only [processOneDLQMessage, hs, if_true] at ho
      simp only [hs, iff_true]
      cases hrs : rs m'.id <;> simp [hrs] at ho <;>
        simp [← ho.1]
    · simp only [processOneDLQMessage, hs, if_false] at ho
      simp only [hs, iff_false]
      simp [Bool.not_eq_true] at hs
      simp only [hs, Bool.false_eq_true, if_false] at ho
      rw [Prod.mk.injEq] at ho
      rw [← ho.1]
      simp

/-- C4 witness: the decision and the archive-and-delete path applied at
concrete records. -/
theorem C4_sweep_retry_decision_witness :
    shouldRetryMessage
      ⟨"m1", "message.received", "baileys.events", "q", "p", "TIMEOUT",
       1, 3, 0, 0, none⟩ 300000 = true ∧
    isRecoverableError "TIMEOUT depois de VALIDATION_ERROR" = false ∧
    isRecoverableError "erro novo sem categoria" = true ∧
    processOneDLQMessage
      ⟨"m2", "message.received", "baileys.events", "q", "p", "TIMEOUT",
       3, 3, 0, 0, none⟩ 300000 "2026-10-12" true =
      (.discarded,
       [.archiveAppend "dlq:archive:2026-10-12" "m2",
        .redisExpire "dlq:archive:2026-10-12" (30 * 24 * 60 * 60),
        .redisDel "dlq:message:m2"]) := by
  refine ⟨?_, ?_, ?_, ?_⟩
  · exact (C4_sweep_retry_decision.1
      ⟨"m1", "message.received", "baileys.events", "q", "p", "TIMEOUT",
       1, 3, 0, 0, none⟩ 300000).mpr ⟨by decide, by decide, by decide⟩
  · exact C4_sweep_retry_decision.2.1
      "TIMEOUT depois de VALIDATION_ERROR" (by decide)
  · exact C4_sweep_retry_decision.2.2.1
      "erro novo sem categoria" (by decide) (by decide)
  · exact C4_sweep_retry_decision.2.2.2.1
      ⟨"m2", "message.received", "baileys.events", "q", "p", "TIMEOUT",
       3, 3, 0, 0, none⟩ 300000 "2026-10-12" true (by decide)

/-- C5: retryMessage returns false with no store modification when the
record is missing or retryCount has reached maxRetries; otherwise it
increments retryCount, stamps lastErrorTimestamp with now, persists the
update, republishes the original payload to the recorded original
exchange and routing key, and returns the publish result. -/
theorem C5_retry_message_contract :
    (∀ (now : Int) (po : Except Unit Bool),
      retryMessage none now po = (false, [])) ∧
    (∀ (m : DLQMessage) (now : Int) (po : Except Unit Bool),
      m.maxRetries ≤ m.retryCount →
      retryMessage (some m) now po = (false, [])) ∧
    (∀ (m : DLQMessage) (now : Int) (published : Bool),
      m.retryCount < m.maxRetries →
      retryMessage (some m) now (Except.ok published) =
        (published,
         [.redisSet ("dlq:message:" ++ m.id)
            ({ m with retryCount := m.retryCount + 1,
                      lastErrorTimestamp := now }) (7 * 24 * 60 * 60),
          .publishPayload m.originalExchange m.originalRoutingKey
            m.payload])) := by
  refine ⟨?_, ?_, ?_⟩
  · intro now po
    rfl
  · intro m now po h
    simp [retryMessage, h]
  · intro m now published h
    simp [retryMessage, not_le.mpr h, saveDLQMessageToRedis, dlqKey,
      dlqRecordTTL]

/-- C5 witness: the contract applied at a concrete exhausted record and a
concrete successful republish. -/
theorem C5_retry_message_contract_witness :
    retryMessage
      (some ⟨"m3", "message.received", "baileys.events", "q", "pay",
             "TIMEOUT", 3, 3, 0, 0, none⟩) 5000 (Except.ok true) =
      (false, []) ∧
    retryMessage
      (some ⟨"m4", "message.received", "baileys.events", "q", "pay",
             "TIMEOUT", 1, 3, 0, 0, none⟩) 5000 (Except.ok true) =
      (true,
       [.redisSet "dlq:message:m4"
          ⟨"m4", "message.received", "baileys.events", "q", "pay",
           "TIMEOUT", 2, 3, 0, 5000, none⟩ (7 * 24 * 60 * 60),
        .publishPayload "baileys.events" "message.received" "pay"]) := by
  refine ⟨?_, ?_⟩
  · exact C5_retry_message_contract.2.1
      ⟨"m3", "message.received", "baileys.events", "q", "pay",
       "TIMEOUT", 3, 3, 0, 0, none⟩ 5000 (Except.ok true) (by decide)
  · exact C5_retry_message_contract.2.2
      ⟨"m4", "message.received", "baileys.events", "q", "pay",
       "TIMEOUT", 1, 3, 0, 0, none⟩ 5000 true (by decide)

/-- C9: retryMessage persists the incremented retryCount and refreshed
lastErrorTimestamp before attempting the republish, so a failed republish
(returning false or throwing) still leaves the stored record with
retryCount increased by one while the call returns false. -/
theorem C9_failed_retry_consumes_budget :
    ∀ (m : DLQMessage) (now : Int) (po : Except Unit Bool),
      m.retryCount < m.maxRetries →
      (po = Except.ok false ∨ po = Except.error ()) →
      (retryMessage (some m) now po).1 = false ∧
      (retryMessage (some m) now po).2.head? =
        some (.redisSet ("dlq:message:" ++ m.id)
          ({ m with retryCount := m.retryCount + 1,
                    lastErrorTimestamp := now }) (7 * 24 * 60 * 60)) := by
  intro m now po h hpo
  rcases hpo with rfl | rfl <;>
    simp [retryMessage, not_le.mpr h, saveDLQMessageToRedis, dlqKey,
      dlqRecordTTL]

/-- C9 witness: a concrete failed republish still persists the
incremented retry count. -/
theorem C9_failed_retry_consumes_budget_witness :
    (retryMessage
      (some ⟨"m5", "message.received", "baileys.events", "q", "pay",
             "TIMEOUT", 0, 3, 0, 0, none⟩) 9000 (Except.ok false)).1
        = false ∧
    (retryMessage
      (some ⟨"m5", "message.received", "baileys.events", "q", "pay",
             "TIMEOUT", 0, 3, 0, 0, none⟩) 9000 (Except.ok false)).2.head?
      = some (.redisSet "dlq:message:m5"
          ⟨"m5", "message.received", "baileys.events", "q", "pay",
           "TIMEOUT", 1, 3, 0, 9000, none⟩ (7 * 24 * 60 * 60)) :=
  C9_failed_retry_consumes_budget
    ⟨"m5", "message.received", "baileys.events", "q", "pay",
     "TIMEOUT", 0, 3, 0, 0, none⟩ 9000 (Except.ok false) (by decide)
    (Or.inl rfl)

/-- C7 counterexample: parking a concrete record writes the 7-day-TTL key
and publishes to the dead-letter exchange, but performs no daily-archive
append — contradicting the claim that park also appends an audit entry to
the daily bucket at parking time. -/
theorem C7_counterexample_no_archive_on_park :
    ((sendToDeadLetterQueue "pay" "q" "message.received" "err" 0 none
        1700000000000 "d1").2).any isArchiveAppendEffect = false := by
  decide

/-- C7 (amended): park stores the record under dlq:message:id with a
7-day TTL and publishes it to the dead-letter exchange, with no
daily-archive append at parking time; daily-archive appends are the work
of archiveMessage (invoked by the discard path of the sweep and by the
operator purge clearDLQ), which the park path never calls. -/
theorem C7_park_stores_with_ttl :
    (∀ (payload q rk err : String) (rc : Nat) (inst : Option String)
        (now : Int) (newId : String),
      (sendToDeadLetterQueue payload q rk err rc inst now newId).1 =
        ⟨newId, rk, "baileys.events", q, payload, err, rc, 3, now, now,
         inst⟩ ∧
      (sendToDeadLetterQueue payload q rk err rc inst now newId).2 =
        [.redisSet ("dlq:message:" ++ newId)
           ⟨newId, rk, "baileys.events", q, payload, err, rc, 3, now, now,
            inst⟩ (7 * 24 * 60 * 60),
         .publishRecord "baileys.dlx" "dead.letter"
           ⟨newId, rk, "baileys.events", q, payload, err, rc, 3, now, now,
            inst⟩] ∧
      ((sendToDeadLetterQueue payload q rk err rc inst now newId).2).any
          isArchiveAppendEffect = false) ∧
    (∀ (m : DLQMessage) (today : String),
      archiveMessage m today =
        [.archiveAppend ("dlq:archive:" ++ today) m.id,
         .redisExpire ("dlq:archive:" ++ today) (30 * 24 * 60 * 60)]) := by
  refine ⟨?_, ?_⟩
  · intro payload q rk err rc inst now newId
    refine ⟨rfl, rfl, rfl⟩
  · intro m today
    rfl

set_option maxHeartbeats 3200000 in
/-- C8 helper: every firing branch of the message-pattern chain sets a
type other than UNKNOWN_ERROR, so an UNKNOWN_ERROR result means the chain
left the code-switch output untouched. -/
theorem analyzeErrorMessage_unknown_fix (e : JSError) (info : RMQErrorInfo)
    (h : (analyzeErrorMessage e info).type = .UNKNOWN_ERROR) :
    analyzeErrorMessage e info = info := by
  simp only [analyzeErrorMessage] at h ⊢
  generalize strLower e.message = m at h ⊢
  split_ifs at h with hm h1 h2 h3 h4 h5 h6 h7 h8 h9 h10 h11 h12 <;>
    first
      | (exact absurd h (by simp))
      | simp [*]

/-- C8 helper: when the code switch classifies UNKNOWN_ERROR, its
retryable, shouldReconnect and shouldUseDLQ flags all equal the
truthiness of the numeric code (the switch default sets all three; the
declared default sets none). -/
theorem analyzeErrorCode_unknown_flags (e : JSError) (ctx : String)
    (h : (analyzeErrorCode e ctx).type = .UNKNOWN_ERROR) :
    (analyzeErrorCode e ctx).retryable = codeTruthy e.code ∧
    (analyzeErrorCode e ctx).shouldReconnect = codeTruthy e.code ∧
    (analyzeErrorCode e ctx).shouldUseDLQ = codeTruthy e.code := by
  rcases he : e.code with - | c
  · simp [analyzeErrorCode, he, codeTruthy]
  · simp only [analyzeErrorCode, he, codeTruthy] at h ⊢
    split_ifs at h ⊢ <;> simp_all

/-- C8 helper: an error whose classification comes out UNKNOWN_ERROR has
its retryable, shouldReconnect and shouldUseDLQ flags all equal to the
truthiness of its numeric code. -/
theorem analyzeError_unknown_flags (e : JSError) (ctx : String)
    (h : (analyzeError e ctx).type = .UNKNOWN_ERROR) :
    (analyzeError e ctx).retryable = codeTruthy e.code ∧
    (analyzeError e ctx).shouldReconnect = codeTruthy e.code ∧
    (analyzeError e ctx).shouldUseDLQ = codeTruthy e.code := by
  simp only [analyzeError] at h ⊢
  have hmsg := analyzeErrorMessage_unknown_fix e (analyzeErrorCode e ctx) h
  rw [hmsg] at h
  rw [hmsg]
  exact analyzeErrorCode_unknown_flags e ctx h

/-- C8 counterexample: a codeless error matching no message pattern is
classified Unknown with retryable = false, and handleError resolves it
directly to discard (with full retry budget remaining) — contradicting
the claim that Unknown defaults to retryable with a retry action and that
discard is only the DLQ-publish-failure fallback. -/
theorem C8_counterexample_unknown_discard :
    (analyzeError ⟨none, "erro misterioso"⟩ "ctx").type = .UNKNOWN_ERROR ∧
    (analyzeError ⟨none, "erro misterioso"⟩ "ctx").retryable = false ∧
    (handleError defaultErrorHandlerConfig ⟨none, "erro misterioso"⟩
        "ctx" 0).action = .discard := by
  refine ⟨by decide, by decide, by decide⟩

/-- C8 (amended): an error classified Unknown is retryable exactly when
its numeric code is truthy; such errors resolve to reconnect (never
retry), while a codeless unclassified error keeps the default
retryable = false and resolves directly to discard — so discard is a
direct classification outcome, not only the DLQ-publish-failure
fallback. -/
theorem C8_unknown_classification_outcome :
    ∀ (e : JSError) (ctx : String) (crc : Nat) (cfg : ErrorHandlingConfig),
      (analyzeError e ctx).type = .UNKNOWN_ERROR →
      (analyzeError e ctx).retryable = codeTruthy e.code ∧
      (handleError cfg e ctx crc).action =
        (if codeTruthy e.code then .reconnect else .discard) := by
  intro e ctx crc cfg h
  obtain ⟨hr, hrc, hdlq⟩ := analyzeError_unknown_flags e ctx h
  refine ⟨hr, ?_⟩
  have ht1 : ((analyzeError e ctx).type == RMQErrorType.ACCESS_REFUSED)
      = false := by simp [h]
  have ht2 : ((analyzeError e ctx).type == RMQErrorType.PERMISSION_DENIED)
      = false := by simp [h]
  cases hc : codeTruthy e.code
  · rw [hc] at hr hrc hdlq
    simp [handleError, ht1, ht2, hrc, ehShouldRetry, hr, hdlq]
  · rw [hc] at hrc
    simp [handleError, ht1, ht2, hrc]

/-- C8 witness: the amended classification applied at a concrete
unknown-code error. -/
theorem C8_unknown_classification_outcome_witness :
    (analyzeError ⟨some 999, "falha estranha"⟩ "ctx").retryable = true ∧
    (handleError defaultErrorHandlerConfig ⟨some 999, "falha estranha"⟩
        "ctx" 0).action = .reconnect := by
  have h := C8_unknown_classification_outcome ⟨some 999, "falha estranha"⟩
    "ctx" 0 defaultErrorHandlerConfig (by decide)
  exact ⟨h.1.trans (by decide), h.2.trans (by decide)⟩

/-- C3 counterexample: a retryable failure (resource locked) on a
delivery consumed from the send-commands queue with retry budget left is
republished to the fixed pair baileys.events / message.retry with a
5000 ms delay (not base × 2^retryCount = 1000 ms), and that target is
bound to no queue — in particular not the queue the delivery came
from. -/
theorem C3_counterexample_retry_not_same_queue :
    handleMessageError defaultConsumerConfig 0
        ⟨some 405, "recurso bloqueado"⟩ "send-command" =
      [.publish "baileys.events" "message.retry" 5000 1, .ack] ∧
    deliversTo "instance-1" "baileys.events" "message.retry"
        "whatsapp.send.commands" = false := by
  refine ⟨by decide, by decide⟩

/-- C3 (amended): on a retry-classified error with retryCount <
maxRetries, handleMessageError schedules a republish to the fixed target
exchange baileys.events with routing key message.retry — a target bound
to no queue in the declared topology, hence never the queue the delivery
was consumed from — with the retry-count header incremented and the delay
computed by calculateRetryDelay (the error-specific fixed delay when one
is set, else base × 2^retryCount with no cap), and then acks the original
delivery. -/
theorem C3_retry_republish_target :
    ∀ (c : ConsumerConfig) (rc : Nat) (e : JSError) (ctx : String),
      (handleError (consumerEHConfig c) e ctx rc).action = .retry →
      rc < c.maxRetries →
      handleMessageError c rc e ctx =
        [.publish "baileys.events" "message.retry"
           (handleError (consumerEHConfig c) e ctx rc).delay (rc + 1),
         .ack] ∧
      (∀ (i q : String),
        deliversTo i "baileys.events" "message.retry" q = false) := by
  intro c rc e ctx h1 h2
  constructor
  · simp [handleMessageError, h1, h2]
  · intro i q
    have h3 : topicMatch ["instance", "create"] (splitDots "message.retry")
        = false := rfl
    have h4 : topicMatch ["instance", "delete"] (splitDots "message.retry")
        = false := rfl
    have h5 : ∀ (x : String),
        topicMatch ["instance", x, "*"] (splitDots "message.retry")
          = false := fun _ => rfl
    simp [deliversTo, declaredBindings, h3, h4, h5]

/-- C3 witness: the amended statement applied at a concrete
resource-locked error with retry budget left. -/
theorem C3_retry_republish_target_witness :
    handleMessageError defaultConsumerConfig 0
        ⟨some 405, "recurso travado"⟩ "ctx" =
      [.publish "baileys.events" "message.retry"
         (handleError (consumerEHConfig defaultConsumerConfig)
            ⟨some 405, "recurso travado"⟩ "ctx" 0).delay 1,
       .ack] ∧
    deliversTo "inst1" "baileys.events" "message.retry"
        "whatsapp.messages.bridge" = false := by
  have h := C3_retry_republish_target defaultConsumerConfig 0
    ⟨some 405, "recurso travado"⟩ "ctx" (by decide) (by decide)
  exact ⟨h.1, h.2 "inst1" "whatsapp.messages.bridge"⟩

/-- C1: evaluating the relay at the failing inputs — a parsed broker
delivery whose stream append fails (xAdd throws, addMessageToStream
swallows the error and returns none) is still acked to the broker, and a
log entry whose storage callback throws is still xAcked by the catch
block.  The claim (append failure never acked; callback throw leaves the
entry unacked) is the at-least-once property stated in the spec; the code
violates it. -/
theorem C1_relay_acks_despite_failure :
    bridgeOnRabbitMessage (Except.ok ()) (Except.error ()) =
      (BrokerAck.ack, none) ∧
    rcProcessMessage (Except.error ()) = true :=
  ⟨rfl, rfl⟩

end PharmaWhatsApp
